import Mathlib

/-
Verification of the anonimizzatore core (src/anonimizzatore/anonymizer.py).

The module wraps Microsoft Presidio: construction probes which spaCy models
are installed, `analyze_text` gates on blank text and on the available
languages before delegating to the external analyzer, and `anonymize_text`
builds an effective replacement table from the built-in defaults, the
caller-supplied overrides and an optional default value, then delegates the
actual span substitution to the external anonymization engine.

Python dicts with string keys are embedded as insertion-ordered association
lists with unique keys; machine floats (confidence scores) are embedded as
rationals, since the code only ever compares them.  External collaborators
(the spaCy model probe and the analyzer engine) are passed in as function
parameters, so "does not invoke the engine" becomes "the result is the same
for every engine".
-/

namespace Anonimizzatore

/-! ## Python dictionary model (insertion-ordered association list) -/

/-- Set key `k` to value `v` in a Python dict: replace the value in place if
the key is present, otherwise append the new pair at the end. -/
def dictSet : List (String × String) → String → String → List (String × String)
  | [], k, v => [(k, v)]
  | (k', v') :: rest, k, v =>
      if k' = k then (k, v) :: rest else (k', v') :: dictSet rest k v

/-- Look up key `k` in a Python dict (first binding wins; keys are unique). -/
def dictGet? (d : List (String × String)) (k : String) : Option String :=
  (d.find? (fun p => p.1 == k)).map (fun p => p.2)

/-- `d.update(o)` of Python dicts: set every binding of `o` in order. -/
def dictUpdate (d : List (String × String)) (o : List (String × String)) :
    List (String × String) :=
  o.foldl (fun acc kv => dictSet acc kv.1 kv.2) d

/-! ## Python whitespace and `str.strip()` -/

/-- Characters stripped by Python's argumentless `str.strip()`: the code
points for which `str.isspace()` holds. -/
def pyIsSpace (c : Char) : Bool :=
  [0x09, 0x0a, 0x0b, 0x0c, 0x0d, 0x1c, 0x1d, 0x1e, 0x1f, 0x20, 0x85, 0xa0,
   0x1680, 0x2000, 0x2001, 0x2002, 0x2003, 0x2004, 0x2005, 0x2006, 0x2007,
   0x2008, 0x2009, 0x200a, 0x2028, 0x2029, 0x202f, 0x205f, 0x3000].contains c.toNat

/-- Drop leading and trailing whitespace from a character list. -/
def pyStripChars (l : List Char) : List Char :=
  ((l.dropWhile pyIsSpace).reverse.dropWhile pyIsSpace).reverse

/-- Python's `text.strip()` with no arguments. -/
def pyStrip (s : String) : String :=
  String.mk (pyStripChars s.data)

/-! ## Data model -/

/-- One detection produced by the recognition engine (presidio's
`RecognizerResult`): entity type tag, half-open character span into the
original text, confidence score. -/
structure RecognizerResult where
  entity_type : String
  start : Nat
  end_ : Nat
  score : ℚ
deriving DecidableEq, Repr

/-- One applied replacement in the audit trail: entity type, original span
boundaries and the replacement value actually used. -/
structure ReplacementItem where
  entity_type : String
  start : Nat
  end_ : Nat
  text : String
deriving DecidableEq, Repr

/-- Result of `anonymize_text`: the substituted text plus the ordered
replacement records (the `AnonymizationResult` dataclass, with the item
dicts given structure). -/
structure AnonymizationResult where
  text : String
  items : List ReplacementItem
deriving DecidableEq, Repr

/-- Failure of construction: no spaCy model installed.  The payload is the
full supported language-to-model table that the error message enumerates. -/
inductive InitError where
  | noModels : List (String × String) → InitError
deriving DecidableEq, Repr

/-- Failure of `analyze_text`: the requested language is not available.  The
payload carries the requested language and the available ones, which the
raised message interpolates. -/
inductive AnalyzeError where
  | invalidLanguage : String → List String → AnalyzeError
deriving DecidableEq, Repr

/-- Failure of `anonymize_text` on a malformed match (empty or out-of-bounds
span). -/
inductive AnonymizeError where
  | invalidMatch : RecognizerResult → AnonymizeError
deriving DecidableEq, Repr

/-- Process-wide state built by `PresidioAnonymizer.__init__`: the spaCy
model configuration actually loaded and the available language codes. -/
structure PresidioAnonymizerState where
  models : List (String × String)
  languages : List String
deriving DecidableEq, Repr

/-! ## Language gate and recognition adapter -/

/-- The fixed language-to-model table `_SPACY_MODELS` (a Python dict iterated
in insertion order). -/
def _SPACY_MODELS : List (String × String) :=
  [("en", "en_core_web_sm"), ("it", "it_core_news_sm")]

/-- `PresidioAnonymizer.__init__`: probe each supported model with the
`is_spacy_model_available` oracle, collect the installed ones and their
language codes, and fail when none is installed, reporting the full
supported table. -/
def initAnonymizer (is_spacy_model_available : String → Bool) :
    Except InitError PresidioAnonymizerState :=
  let acc := _SPACY_MODELS.foldl
    (fun (acc : List (String × String) × List String) lm =>
      if is_spacy_model_available lm.2 then (acc.1 ++ [lm], acc.2 ++ [lm.1]) else acc)
    ([], [])
  if acc.1 = [] then
    .error (.noModels _SPACY_MODELS)
  else
    .ok ⟨acc.1, acc.2⟩

/-- `PresidioAnonymizer.analyze_text`: return no matches for blank text,
reject unavailable languages, otherwise delegate to the external analyzer
engine (passed as a parameter). -/
def analyze_text (engine : String → String → List RecognizerResult)
    (languages : List String) (text language : String) :
    Except AnalyzeError (List RecognizerResult) :=
  if pyStrip text = "" then
    .ok []
  else if languages.contains language = false then
    .error (.invalidLanguage language languages)
  else
    .ok (engine text language)

/-! ## Replacement table -/

/-- `PresidioAnonymizer.default_entity_replacements`: the built-in default
replacement table. -/
def default_entity_replacements : List (String × String) :=
  [("DEFAULT", "<ANONIMO>"),
   ("PERSON", "<PERSONA>"),
   ("LOCATION", "<LOCALITÀ>"),
   ("EMAIL_ADDRESS", "<EMAIL>"),
   ("PHONE_NUMBER", "<TELEFONO>"),
   ("DATE_TIME", "<DATA>"),
   ("IBAN_CODE", "<IBAN>"),
   ("CREDIT_CARD", "<CARTA>"),
   ("NRP", "<DOCUMENTO>")]

/-- The override-merge step of `anonymize_text`: if a truthy (non-`None`,
non-empty) override mapping was given, update the table with its
non-empty-valued entries (`replacements.update({k: v for k, v in
entity_replacements.items() if v})`). -/
def mergeOverrides (base : List (String × String))
    (entity_replacements : Option (List (String × String))) :
    List (String × String) :=
  match entity_replacements with
  | some er =>
      if er = [] then base
      else dictUpdate base (er.filter (fun kv => kv.2 != ""))
  | none => base

/-- The default-value step of `anonymize_text`: if a truthy (non-`None`,
non-empty) default value was given, set the `DEFAULT` entry to it
(`replacements["DEFAULT"] = default_value`). -/
def applyDefaultValue (t : List (String × String)) (default_value : Option String) :
    List (String × String) :=
  match default_value with
  | some dv => if dv = "" then t else dictSet t "DEFAULT" dv
  | none => t

/-- The effective replacement table built at the start of
`anonymize_text`: copy the defaults, merge the overrides, apply the default
value.  `Option` models Python's `None` defaults, and the emptiness tests
model Python truthiness. -/
def buildReplacements (entity_replacements : Option (List (String × String)))
    (default_value : Option String) : List (String × String) :=
  applyDefaultValue (mergeOverrides default_entity_replacements entity_replacements)
    default_value

/-! ## Substitution engine

The span substitution itself is delegated by the source to the external
presidio `AnonymizerEngine`.  Modelled from the spec: the replacement
engine's substitution algorithm (conflict policy, single left-to-right
rebuild, `DEFAULT` fallback, `InvalidMatch` on malformed spans), which the
reviewed code does not implement itself. -/

/-- Replacement string for an entity type: its table entry, falling back to
the `DEFAULT` entry when absent. -/
def lookupReplacement (table : List (String × String)) (entity : String) : String :=
  match dictGet? table entity with
  | some v => v
  | none => (dictGet? table "DEFAULT").getD ""

/-- A well-formed match: non-empty span lying inside the text. -/
def validMatchB (len : Nat) (m : RecognizerResult) : Bool :=
  decide (m.start < m.end_ ∧ m.end_ ≤ len)

/-- Two matches occupy overlapping character ranges. -/
def overlapsB (a b : RecognizerResult) : Bool :=
  decide (a.start < b.end_ ∧ b.start < a.end_)

/-- Length of a match's span. -/
def spanLen (m : RecognizerResult) : Nat := m.end_ - m.start

/-- Conflict policy between two distinct index-tagged matches: prefer the
longer span; on equal length the higher confidence; on a further tie the
one appearing first in the input sequence. -/
def prefersB (a b : Nat × RecognizerResult) : Bool :=
  if spanLen a.2 ≠ spanLen b.2 then decide (spanLen b.2 < spanLen a.2)
  else if a.2.score ≠ b.2.score then decide (b.2.score < a.2.score)
  else decide (a.1 < b.1)

/-- Insert a match into a start-sorted list of matches. -/
def insertByStart (m : RecognizerResult) : List RecognizerResult → List RecognizerResult
  | [] => [m]
  | x :: xs => if m.start ≤ x.start then m :: x :: xs else x :: insertByStart m xs

/-- Sort matches by start offset (insertion sort). -/
def sortByStart (l : List RecognizerResult) : List RecognizerResult :=
  l.foldr insertByStart []

/-- Surviving matches after overlap resolution, in left-to-right order: a
match survives when it is preferred over every other match it overlaps
with; superseded matches are dropped entirely. -/
def resolveOverlaps (ms : List RecognizerResult) : List RecognizerResult :=
  let indexed := ms.enum
  let surv := indexed.filter
    (fun a => indexed.all (fun b => a.1 == b.1 || !overlapsB a.2 b.2 || prefersB a b))
  sortByStart (surv.map (fun p => p.2))

/-- Rebuild the text in a single left-to-right pass over the (sorted,
pairwise non-overlapping) surviving matches, substituting each span with
its replacement and collecting the audit records. -/
def applyReplacements (table : List (String × String)) (cs : List Char) (pos : Nat) :
    List RecognizerResult → List Char × List ReplacementItem
  | [] => (cs.drop pos, [])
  | m :: rest =>
      let rep := lookupReplacement table m.entity_type
      let tail := applyReplacements table cs m.end_ rest
      ((cs.drop pos).take (m.start - pos) ++ rep.data ++ tail.1,
       ⟨m.entity_type, m.start, m.end_, rep⟩ :: tail.2)

/-- `PresidioAnonymizer.anonymize_text`: build the effective replacement
table, then substitute.  The substitution step is modelled from the spec
(the source delegates it to the external presidio engine): malformed
matches fail with `InvalidMatch`; otherwise overlaps are resolved by the
deterministic conflict policy and the output is rebuilt left-to-right
against the original text. -/
def anonymize_text (text : String) (recognizer_results : List RecognizerResult)
    (entity_replacements : Option (List (String × String)))
    (default_value : Option String) :
    Except AnonymizeError AnonymizationResult :=
  let replacements := buildReplacements entity_replacements default_value
  match recognizer_results.find? (fun m => !validMatchB text.data.length m) with
  | some m => .error (.invalidMatch m)
  | none =>
      let surv := resolveOverlaps recognizer_results
      let out := applyReplacements replacements text.data 0 surv
      .ok ⟨String.mk out.1, out.2⟩

/-- `PresidioAnonymizer.serialize_recognizer_results`: field extraction that
preserves input ordering (the result dicts, given structure). -/
def serialize_recognizer_results (results : List RecognizerResult) :
    List RecognizerResult :=
  results.map (fun r => r)

/-! ## Helper lemmas -/

theorem dictGet?_dictSet_self (k v : String) :
    ∀ d : List (String × String), dictGet? (dictSet d k v) k = some v := by
  intro d
  induction d with
  | nil => simp [dictSet, dictGet?, List.find?]
  | cons hd tl ih =>
      by_cases h : hd.1 = k
      · simp [dictSet, h, dictGet?, List.find?]
      · simpa [dictSet, h, dictGet?, List.find?, beq_iff_eq] using ih

theorem dictGet?_dictSet_ne (k' v k : String) (hne : k' ≠ k) :
    ∀ d : List (String × String), dictGet? (dictSet d k' v) k = dictGet? d k := by
  have hb : (k' == k) = false := beq_eq_false_iff_ne.mpr hne
  intro d
  induction d with
  | nil => simp [dictSet, dictGet?, List.find?, hb]
  | cons hd tl ih =>
      obtain ⟨k1, v1⟩ := hd
      by_cases h : k1 = k'
      · subst h
        simp [dictSet, dictGet?, List.find?, hb]
      · have hset : dictSet ((k1, v1) :: tl) k' v = (k1, v1) :: dictSet tl k' v := by
          simp [dictSet, h]
        rw [hset]
        cases hk : (k1 == k) with
        | true => simp [dictGet?, List.find?, hk]
        | false =>
            have h1 : dictGet? ((k1, v1) :: dictSet tl k' v) k =
                dictGet? (dictSet tl k' v) k := by
              simp [dictGet?, List.find?, hk]
            have h2 : dictGet? ((k1, v1) :: tl) k = dictGet? tl k := by
              simp [dictGet?, List.find?, hk]
            rw [h1, h2, ih]

theorem dictGet?_dictUpdate_nonempty (k : String) :
    ∀ (o d : List (String × String)),
      (∃ v, dictGet? d k = some v ∧ v ≠ "") → (∀ kv ∈ o, kv.2 ≠ "") →
      ∃ v, dictGet? (dictUpdate d o) k = some v ∧ v ≠ "" := by
  intro o
  induction o with
  | nil => intro d hd _; exact hd
  | cons kv rest ih =>
      intro d hd ho
      have hstep : ∃ v, dictGet? (dictSet d kv.1 kv.2) k = some v ∧ v ≠ "" := by
        by_cases h : kv.1 = k
        · exact ⟨kv.2, h ▸ dictGet?_dictSet_self kv.1 kv.2 d, ho kv (by simp)⟩
        · obtain ⟨v, hv, hvne⟩ := hd
          exact ⟨v, (dictGet?_dictSet_ne kv.1 kv.2 k h d).trans hv, hvne⟩
      have htail : ∀ kv' ∈ rest, kv'.2 ≠ "" := fun kv' h => ho kv' (by simp [h])
      simpa [dictUpdate] using ih (dictSet d kv.1 kv.2) hstep htail

theorem mem_dropWhile_of_not (p : Char → Bool) (x : Char) (hx : p x = false) :
    ∀ l : List Char, x ∈ l → x ∈ l.dropWhile p := by
  intro l
  induction l with
  | nil => simp
  | cons a t ih =>
      intro h
      rw [List.dropWhile_cons]
      by_cases hpa : p a = true
      · rw [if_pos hpa]
        rcases List.mem_cons.mp h with rfl | hmem
        · simp [hpa] at hx
        · exact ih hmem
      · rw [if_neg hpa]
        exact h

theorem pyStripChars_eq_nil_of_all (l : List Char) (h : l.all pyIsSpace = true) :
    pyStripChars l = [] := by
  have h1 : l.dropWhile pyIsSpace = [] :=
    List.dropWhile_eq_nil_iff.mpr (fun x hx => List.all_eq_true.mp h x hx)
  simp [pyStripChars, h1]

theorem pyStripChars_ne_nil_of_not_all (l : List Char)
    (h : l.all pyIsSpace = false) : pyStripChars l ≠ [] := by
  obtain ⟨x, hxl, hxp⟩ := List.all_eq_false.mp h
  have hxp' : pyIsSpace x = false := by simpa using hxp
  have h1 : x ∈ l.dropWhile pyIsSpace := mem_dropWhile_of_not pyIsSpace x hxp' l hxl
  have h2 : x ∈ (l.dropWhile pyIsSpace).reverse := List.mem_reverse.mpr h1
  have h3 : x ∈ (l.dropWhile pyIsSpace).reverse.dropWhile pyIsSpace :=
    mem_dropWhile_of_not pyIsSpace x hxp' _ h2
  have h4 : x ∈ pyStripChars l := List.mem_reverse.mpr h3
  exact List.ne_nil_of_mem h4

theorem pyStrip_eq_empty_of_all (s : String) (h : s.data.all pyIsSpace = true) :
    pyStrip s = "" := by
  simp [pyStrip, pyStripChars_eq_nil_of_all s.data h]

theorem pyStrip_ne_empty_of_not_all (s : String)
    (h : s.data.all pyIsSpace = false) : pyStrip s ≠ "" := by
  unfold pyStrip
  intro hc
  have : pyStripChars s.data = [] := by
    have := congrArg String.data hc
    simpa using this
  exact pyStripChars_ne_nil_of_not_all s.data h this

theorem applyReplacements_snd (table : List (String × String)) (cs : List Char) :
    ∀ (l : List RecognizerResult) (pos : Nat),
      (applyReplacements table cs pos l).2 =
        l.map (fun m =>
          (⟨m.entity_type, m.start, m.end_,
            lookupReplacement table m.entity_type⟩ : ReplacementItem)) := by
  intro l
  induction l with
  | nil => intro pos; simp [applyReplacements]
  | cons m rest ih => intro pos; simp [applyReplacements, ih]

theorem filter_nonempty_idem (l : List (String × String)) :
    (l.filter (fun kv => kv.2 != "")).filter (fun kv => kv.2 != "") =
      l.filter (fun kv => kv.2 != "") := by
  induction l with
  | nil => rfl
  | cons kv rest ih =>
      by_cases h : (kv.2 != "") = true
      · simp [List.filter_cons, h, ih]
      · have h' : (kv.2 != "") = false := by simpa using h
        simp [List.filter_cons, h', ih]

/-! ## Claims -/

/-- C1: for every external recognition engine, every available-language set,
every language (available or not) and every text that is empty or consists
only of whitespace, `analyze_text` returns an empty match sequence; the
result is the same for every engine parameter, so the external recognition
engine is not invoked. -/
theorem analyze_blank_short_circuit
    (engine : String → String → List RecognizerResult)
    (languages : List String) (text language : String)
    (h : text.data.all pyIsSpace = true) :
    analyze_text engine languages text language = .ok [] := by
  unfold analyze_text
  rw [if_pos (pyStrip_eq_empty_of_all text h)]

/-- Witness for C1 at a whitespace-only text, an unavailable language and an
engine that would report a match if it were consulted. -/
theorem analyze_blank_short_circuit_witness :
    analyze_text (fun _ _ => [⟨"PERSON", 0, 1, 1⟩]) ["en"] "   " "zz" = .ok [] :=
  analyze_blank_short_circuit (fun _ _ => [⟨"PERSON", 0, 1, 1⟩]) ["en"] "   " "zz"
    (by decide)

/-- C2 counterexample: the blank-text short circuit runs before the language
check, so the empty text with the unavailable language "fr" yields an empty
match sequence instead of an InvalidLanguage error. -/
theorem analyze_invalid_language_counterexample :
    analyze_text (fun _ _ => []) ["en", "it"] "" "fr" = .ok [] := rfl

/-- C2 (amended): for every text that is not empty nor whitespace-only and
every language not in the available set, `analyze_text` fails with an
InvalidLanguage error carrying the requested language and the available
ones, for every engine. -/
theorem analyze_invalid_language
    (engine : String → String → List RecognizerResult)
    (languages : List String) (text language : String)
    (hblank : text.data.all pyIsSpace = false)
    (hlang : languages.contains language = false) :
    analyze_text engine languages text language =
      .error (.invalidLanguage language languages) := by
  unfold analyze_text
  rw [if_neg (pyStrip_ne_empty_of_not_all text hblank), if_pos hlang]

/-- Witness for C2 (amended) at a non-blank text and an unavailable
language. -/
theorem analyze_invalid_language_witness :
    analyze_text (fun _ _ => []) ["en", "it"] "hello" "fr" =
      .error (.invalidLanguage "fr" ["en", "it"]) :=
  analyze_invalid_language (fun _ _ => []) ["en", "it"] "hello" "fr"
    (by decide) (by decide)

/-- C3: an override mapping whose values are all empty leaves the effective
replacement table exactly equal to the built-in default table; more
generally, the empty-valued entries of any override mapping are ignored, so
the table equals the one built from the overrides with the empty-valued
entries removed. -/
theorem build_replacements_empty_overrides :
    (∀ o : List (String × String), (∀ kv ∈ o, kv.2 = "") →
       buildReplacements (some o) none = default_entity_replacements)
  ∧ (∀ (o : List (String × String)) (d : Option String),
       buildReplacements (some o) d =
         buildReplacements (some (o.filter (fun kv => kv.2 != ""))) d) := by
  constructor
  · intro o ho
    have hfil : o.filter (fun kv => kv.2 != "") = [] := by
      rw [List.filter_eq_nil_iff]
      intro kv hkv
      simp [ho kv hkv]
    by_cases ho' : o = []
    · simp [buildReplacements, mergeOverrides, applyDefaultValue, ho']
    · simp [buildReplacements, mergeOverrides, applyDefaultValue, ho', hfil, dictUpdate]
  · intro o d
    have hmerge : mergeOverrides default_entity_replacements (some o) =
        mergeOverrides default_entity_replacements
          (some (o.filter (fun kv => kv.2 != ""))) := by
      by_cases ho : o = []
      · simp [mergeOverrides, ho]
      · by_cases hf : o.filter (fun kv => kv.2 != "") = []
        · simp [mergeOverrides, ho, hf, dictUpdate]
        · simp [mergeOverrides, ho, hf, filter_nonempty_idem]
    unfold buildReplacements
    rw [hmerge]

/-- Witness for C3 at an override mapping with only empty values. -/
theorem build_replacements_empty_overrides_witness :
    buildReplacements (some [("PERSON", ""), ("LOCATION", "")]) none =
      default_entity_replacements :=
  build_replacements_empty_overrides.1 [("PERSON", ""), ("LOCATION", "")] (by decide)

/-- C8: `anonymize_text` is deterministic — two calls with identical
arguments produce identical results, hence identical output text and
identical replacement records (it is a pure function of its arguments in
this embedding). -/
theorem anonymize_deterministic (text : String) (ms : List RecognizerResult)
    (o : Option (List (String × String))) (d : Option String) :
    anonymize_text text ms o d = anonymize_text text ms o d ∧
    (anonymize_text text ms o d).map AnonymizationResult.text =
      (anonymize_text text ms o d).map AnonymizationResult.text ∧
    (anonymize_text text ms o d).map AnonymizationResult.items =
      (anonymize_text text ms o d).map AnonymizationResult.items :=
  ⟨rfl, rfl, rfl⟩

/-- C9: for every text, overrides and default value, anonymizing with an
empty match sequence returns the input text verbatim and an empty
replacement list. -/
theorem anonymize_empty_matches (text : String)
    (o : Option (List (String × String))) (d : Option String) :
    anonymize_text text [] o d = .ok ⟨text, []⟩ := rfl

/-- C10: for every choice of overrides and default value, the effective
replacement table contains the key `DEFAULT` bound to a non-empty string,
so every entity type has a well-defined replacement. -/
theorem effective_table_default_nonempty
    (o : Option (List (String × String))) (d : Option String) :
    ∃ v, dictGet? (buildReplacements o d) "DEFAULT" = some v ∧ v ≠ "" := by
  have hbase : ∃ v, dictGet? default_entity_replacements "DEFAULT" = some v ∧ v ≠ "" :=
    ⟨"<ANONIMO>", by decide, by decide⟩
  have hmerge : ∃ v,
      dictGet? (mergeOverrides default_entity_replacements o) "DEFAULT" = some v ∧
        v ≠ "" := by
    cases o with
    | none => exact hbase
    | some er =>
        by_cases he : er = []
        · simpa [mergeOverrides, he] using hbase
        · have hvals : ∀ kv ∈ er.filter (fun kv => kv.2 != ""), kv.2 ≠ "" := by
            intro kv hkv
            simpa using (List.mem_filter.mp hkv).2
          have := dictGet?_dictUpdate_nonempty "DEFAULT"
            (er.filter (fun kv => kv.2 != "")) default_entity_replacements hbase hvals
          simpa [mergeOverrides, he] using this
  cases d with
  | none => simpa [buildReplacements, applyDefaultValue] using hmerge
  | some dv =>
      by_cases hdv : dv = ""
      · simpa [buildReplacements, applyDefaultValue, hdv] using hmerge
      · exact ⟨dv, by simp [buildReplacements, applyDefaultValue, hdv,
          dictGet?_dictSet_self], hdv⟩

/-- C4 counterexample: in the 23-character text "Mario Rossi vive a Roma"
the span of "Roma" is [19,23), so the claimed match {LOCATION,20,24} is out
of bounds and anonymization fails with InvalidMatch instead of returning
"*** vive a <LOCALITÀ>". -/
theorem anonymize_default_override_counterexample :
    anonymize_text "Mario Rossi vive a Roma"
      [⟨"PERSON", 0, 11, 1⟩, ⟨"LOCATION", 20, 24, 1⟩]
      (some [("PERSON", "***")]) (some "[REDACTED]") =
      .error (.invalidMatch ⟨"LOCATION", 20, 24, 1⟩) := rfl

/-- C4 (amended): a non-empty caller-supplied default value sets the
`DEFAULT` entry of the effective table and leaves the lookup of every other
key unchanged; concretely, for "Mario Rossi vive a Roma" with matches
{PERSON,0,11} and {LOCATION,19,23}, overrides {PERSON ↦ "***"} and default
override "[REDACTED]", the output is "*** vive a <LOCALITÀ>". -/
theorem anonymize_default_override :
    (∀ (o : Option (List (String × String))) (dv : String), dv ≠ "" →
       dictGet? (buildReplacements o (some dv)) "DEFAULT" = some dv ∧
       ∀ k, k ≠ "DEFAULT" →
         dictGet? (buildReplacements o (some dv)) k =
           dictGet? (buildReplacements o none) k)
  ∧ anonymize_text "Mario Rossi vive a Roma"
      [⟨"PERSON", 0, 11, 1⟩, ⟨"LOCATION", 19, 23, 1⟩]
      (some [("PERSON", "***")]) (some "[REDACTED]") =
      .ok ⟨"*** vive a <LOCALITÀ>",
           [⟨"PERSON", 0, 11, "***"⟩, ⟨"LOCATION", 19, 23, "<LOCALITÀ>"⟩]⟩ := by
  constructor
  · intro o dv hdv
    constructor
    · simp [buildReplacements, applyDefaultValue, hdv, dictGet?_dictSet_self]
    · intro k hk
      simp [buildReplacements, applyDefaultValue, hdv,
        dictGet?_dictSet_ne "DEFAULT" dv k (Ne.symm hk)]
  · rfl

/-- Witness for C4 (amended) at the default override "[REDACTED]" with no
entity overrides. -/
theorem anonymize_default_override_witness :
    dictGet? (buildReplacements none (some "[REDACTED]")) "DEFAULT" =
      some "[REDACTED]" :=
  (anonymize_default_override.1 none "[REDACTED]" (by decide)).1

/-- C5: every successful anonymization emits exactly one replacement record
per surviving span of the deterministic conflict policy (longest span, then
higher confidence, then first in the input sequence), each record carrying
a surviving span; in particular, for two equal-confidence matches covering
[0,10) and [0,5) the span [0,10) wins and exactly one replacement is
emitted. -/
theorem anonymize_overlap_policy :
    (∀ (text : String) (ms : List RecognizerResult)
       (o : Option (List (String × String))) (d : Option String)
       (res : AnonymizationResult),
       anonymize_text text ms o d = .ok res →
       res.items.length = (resolveOverlaps ms).length ∧
       ∀ it ∈ res.items, ∃ m ∈ resolveOverlaps ms,
         it.entity_type = m.entity_type ∧ it.start = m.start ∧ it.end_ = m.end_)
  ∧ resolveOverlaps [⟨"PERSON", 0, 10, 1⟩, ⟨"LOCATION", 0, 5, 1⟩] =
      [⟨"PERSON", 0, 10, 1⟩]
  ∧ anonymize_text "ABCDEFGHIJ" [⟨"PERSON", 0, 10, 1⟩, ⟨"LOCATION", 0, 5, 1⟩]
      none none =
      .ok ⟨"<PERSONA>", [⟨"PERSON", 0, 10, "<PERSONA>"⟩]⟩ := by
  refine ⟨?_, rfl, rfl⟩
  intro text ms o d res h
  simp only [anonymize_text] at h
  cases hfind : ms.find? (fun m => !validMatchB text.data.length m) with
  | some m => rw [hfind] at h; cases h
  | none =>
      rw [hfind] at h
      injection h with h2
      subst h2
      constructor
      · simp [applyReplacements_snd]
      · intro it hit
        rw [applyReplacements_snd] at hit
        obtain ⟨m, hm, hmit⟩ := List.mem_map.mp hit
        exact ⟨m, hm, by rw [← hmit]; exact ⟨rfl, rfl, rfl⟩⟩

/-- Witness for C5: the successful concrete run has as many replacement
records as surviving spans. -/
theorem anonymize_overlap_policy_witness :
    ([⟨"PERSON", 0, 10, "<PERSONA>"⟩] : List ReplacementItem).length =
      (resolveOverlaps [⟨"PERSON", 0, 10, 1⟩, ⟨"LOCATION", 0, 5, 1⟩]).length :=
  (anonymize_overlap_policy.1 "ABCDEFGHIJ"
      [⟨"PERSON", 0, 10, 1⟩, ⟨"LOCATION", 0, 5, 1⟩] none none
      ⟨"<PERSONA>", [⟨"PERSON", 0, 10, "<PERSONA>"⟩]⟩ rfl).1

/-- C6: construction fails — with an error enumerating the full supported
language-to-model table — exactly when none of the supported models is
installed, and whenever it succeeds the available language sequence is
non-empty. -/
theorem init_fails_iff_no_models (installed : String → Bool) :
    ((∀ lm ∈ _SPACY_MODELS, installed lm.2 = false) →
       initAnonymizer installed = .error (.noModels _SPACY_MODELS))
  ∧ ((∃ lm ∈ _SPACY_MODELS, installed lm.2 = true) →
       ∃ st, initAnonymizer installed = .ok st ∧ st.languages ≠ []) := by
  cases h1 : installed "en_core_web_sm" <;> cases h2 : installed "it_core_news_sm"
  · refine ⟨fun h => ?_, fun h => ?_⟩
    · simp [initAnonymizer, _SPACY_MODELS, h1, h2]
    · simp [_SPACY_MODELS, h1, h2] at h
  · refine ⟨fun h => ?_, fun h => ?_⟩
    · simp [_SPACY_MODELS, h1, h2] at h
    · exact ⟨⟨[("it", "it_core_news_sm")], ["it"]⟩,
        by simp [initAnonymizer, _SPACY_MODELS, h1, h2], by simp⟩
  · refine ⟨fun h => ?_, fun h => ?_⟩
    · simp [_SPACY_MODELS, h1, h2] at h
    · exact ⟨⟨[("en", "en_core_web_sm")], ["en"]⟩,
        by simp [initAnonymizer, _SPACY_MODELS, h1, h2], by simp⟩
  · refine ⟨fun h => ?_, fun h => ?_⟩
    · simp [_SPACY_MODELS, h1, h2] at h
    · exact ⟨⟨[("en", "en_core_web_sm"), ("it", "it_core_news_sm")], ["en", "it"]⟩,
        by simp [initAnonymizer, _SPACY_MODELS, h1, h2], by simp⟩

/-- Witness for C6 with no model installed: construction fails and the
error enumerates the supported table. -/
theorem init_fails_iff_no_models_witness :
    initAnonymizer (fun _ => false) = .error (.noModels _SPACY_MODELS) :=
  (init_fails_iff_no_models (fun _ => false)).1 (by decide)

/-- C7: for every text, overrides and default value, a match sequence
containing a malformed match (empty span or offsets beyond the end of the
text) makes `anonymize_text` fail with an InvalidMatch error rather than
return an output text. -/
theorem anonymize_invalid_match (text : String) (ms : List RecognizerResult)
    (o : Option (List (String × String))) (d : Option String)
    (h : ∃ m ∈ ms, ¬(m.start < m.end_ ∧ m.end_ ≤ text.data.length)) :
    ∃ m, anonymize_text text ms o d = .error (.invalidMatch m) := by
  obtain ⟨m, hm, hbad⟩ := h
  have hp : (!validMatchB text.data.length m) = true := by
    simp only [validMatchB, Bool.not_eq_true', decide_eq_false_iff_not]
    exact hbad
  have hfind : (ms.find? (fun m => !validMatchB text.data.length m)).isSome := by
    rw [List.find?_isSome]
    exact ⟨m, hm, hp⟩
  obtain ⟨m', hm'⟩ := Option.isSome_iff_exists.mp hfind
  refine ⟨m', ?_⟩
  simp only [anonymize_text]
  rw [hm']

/-- Witness for C7 at an empty-span match. -/
theorem anonymize_invalid_match_witness :
    ∃ m, anonymize_text "abc" [⟨"X", 2, 2, 1⟩] none none =
      .error (.invalidMatch m) :=
  anonymize_invalid_match "abc" [⟨"X", 2, 2, 1⟩] none none
    ⟨⟨"X", 2, 2, 1⟩, by decide, by decide⟩

end Anonimizzatore
